import Mathlib

/-!
Verification of the `fancy` UHECR analysis driver (`fancy/analysis/analysis.py`
and `fancy/interfaces/stan.py`) against its natural-language specification.

The Python code is shallowly embedded: physical quantities are rationals
(reals only for the logarithmically spaced kappa grid, which is genuinely
real-valued), numpy arrays are lists, fallible attribute accesses are
`Except`, and the two Stan samplers are opaque function parameters.
-/

namespace Fancy

/-! ## Analysis-mode tags (`Analysis.__init__`, lines 66-74) -/

/-- Source: `self.arr_dir_type = 'arrival_direction'`. -/
def arr_dir_type : String := "arrival_direction"

/-- Source: `self.E_loss_type = 'energy_loss'`. -/
def E_loss_type : String := "energy_loss"

/-- Source: `self.joint_type = 'joint'`. -/
def joint_type : String := "joint"

/-- Source: `self.gmf_type = "joint_gmf"`. -/
def gmf_type : String := "joint_gmf"

/-- `__init__` lines 71-74: a `None` analysis type defaults to
`arrival_direction`; any explicit string is kept as given. -/
def init_analysis_type (analysis_type : Option String) : String :=
  match analysis_type with
  | none => arr_dir_type
  | some t => t

/-- Helper for `str.find(pat) != -1`: does `pat` start `s`? -/
def list_starts (pat s : List Char) : Bool :=
  match pat, s with
  | [], _ => true
  | _ :: _, [] => false
  | a :: ps, b :: ss => a == b && list_starts ps ss

/-- Helper for `str.find(pat) != -1`: does `pat` occur inside `s`? -/
def contains_sub (pat : List Char) : List Char → Bool
  | [] => list_starts pat []
  | b :: ss => list_starts pat (b :: ss) || contains_sub pat ss

/-- `self.analysis_type.find('joint') != -1` (lines 76, 253). -/
def contains_joint (t : String) : Bool :=
  contains_sub "joint".toList t.toList

/-- The thrice-repeated dispatch condition of `simulate` (lines 343-345,
425-427) and `_prepare_fit_inputs` (lines 508-510): the analysis type is
`joint`, `energy_loss` or `joint_gmf`. -/
def energy_mode (t : String) : Bool :=
  (t == joint_type) || (t == E_loss_type) || (t == gmf_type)

/-! ## Data model -/

/-- A 3D unit vector, as stored in `arrival_direction` rows. -/
def Q3 : Type := ℚ × ℚ × ℚ

instance : DecidableEq Q3 := by unfold Q3; infer_instance

instance : Inhabited Q3 := ⟨((0 : ℚ), (0 : ℚ), (0 : ℚ))⟩

/-- The slice of the `Model` object read by `Analysis`. `ptype` is optional
because `Model.__init__` (src/fancy/interfaces/stan.py) never sets it; an
access on a model where it was never assigned raises `AttributeError`. -/
structure ModelP where
  kappa : ℚ
  B : ℚ
  alpha : ℚ
  L : ℚ
  F0 : ℚ
  Eth : ℚ
  Eth_sim : ℚ
  ptype : Option String
deriving DecidableEq

/-- The slice of `data.source` read by `Analysis`. -/
structure SourceP where
  distance : List ℚ
  unit_vector : List Q3
  N : ℕ
  selection : List ℕ
  flux : Option (List ℚ)
deriving DecidableEq

/-- The slice of `data.detector` read by `Analysis`. -/
structure DetectorP where
  kappa_d : ℚ
  area : ℚ
  lat : ℚ
  lon : ℚ
  threshold_zenith_angle : ℚ
  alpha_T : ℚ
  energy_uncertainty : ℚ
  start_year : ℚ
deriving DecidableEq

/-- The named draws extracted from the simulation sampler's output
(`simulate`, lines 417-431), with the leading single-draw dimension
already stripped. -/
structure SimOut where
  Nex_sim : ℚ
  arrival_direction : List Q3
  lambdas : List ℤ
  Edet : List ℚ
  Earr : List ℚ
  E : List ℚ
deriving DecidableEq

/-- The `simulation_input` dictionary assembled by `simulate`
(lines 351-398).  Mode-dependent fields are `Option`s: `none` means the
key is absent from the dictionary for the active mode. -/
structure SimInput where
  kappa_d : ℚ
  Ns : ℕ
  varpi : List Q3
  D : List ℚ
  A : ℚ
  a0 : ℚ
  lon : ℚ
  theta_m : ℚ
  alpha_T : ℚ
  eps : List ℚ
  L : ℚ
  F0 : ℚ
  distance : List ℚ
  flux : List ℚ
  kappa : Option ℚ
  B : Option ℚ
  alpha : Option ℚ
  Eth : Option ℚ
  Eerr : Option ℚ
  Z : Option ℤ
deriving DecidableEq

/-- The rebuilt UHECR dataset (`uhecr_properties`, lines 450-462).
`energy` is `none` in `arrival_direction` mode, where `self.Edet` was
never populated. -/
structure UhecrP where
  label : String
  N : ℕ
  unit_vector : List Q3
  energy : Option (List ℚ)
  zenith_angle : List ℚ
  A : List ℚ
  source_labels : List ℤ
  ptype : String
deriving DecidableEq

/-- `self.nuc_table[ptype]` lookup: the nuclear table maps a particle-type
name to its `(A, Z)` pair. -/
def lookup_nuc (nuc : List (String × ℤ × ℤ)) (p : String) : Option (ℤ × ℤ) :=
  (nuc.find? (fun e => e.1 == p)).map (fun e => e.2)

/-! ## ScaleConverter

Modelled from the spec: `convert_scale` lives in
`fancy.interfaces.stan_utility`, which is not under `src/`; only its import
and call sites are.  Per spec section 4.4 it is a pure, order-preserving,
shape-preserving map over a variable-length list of physical quantities
(distance, exposure-time, integral-table values, flux, luminosity), each
rescaled into the sampler's numeric scale.  The per-kind factors are left
as a parameter `f`. -/

/-- Modelled from the spec: the closed set of physical-quantity kinds
accepted by `convert_scale`. -/
inductive QKind
  | distance
  | exposureTime
  | tableValues
  | flux
  | luminosity
deriving DecidableEq

/-- A numeric payload: scalar, 1-D array or 2-D array. -/
inductive NumArray
  | scalar (x : ℚ)
  | vec (v : List ℚ)
  | mat (m : List (List ℚ))
deriving DecidableEq

/-- Elementwise rescaling of a payload by a constant. -/
def scale_arr (c : ℚ) : NumArray → NumArray
  | .scalar x => .scalar (c * x)
  | .vec v => .vec (v.map (fun x => c * x))
  | .mat m => .mat (m.map (fun r => r.map (fun x => c * x)))

/-- The shape of a payload, in the numpy sense. -/
def arr_shape : NumArray → List ℕ
  | .scalar _ => []
  | .vec v => [v.length]
  | .mat m => m.map List.length

/-- A tagged physical quantity passed to `convert_scale`. -/
structure PhysQuantity where
  kind : QKind
  val : NumArray
deriving DecidableEq

instance : Inhabited PhysQuantity := ⟨⟨QKind.distance, NumArray.scalar 0⟩⟩

/-- Modelled from the spec: rescale one quantity by its kind's factor. -/
def scale_quantity (f : QKind → ℚ) (q : PhysQuantity) : PhysQuantity :=
  ⟨q.kind, scale_arr (f q.kind) q.val⟩

/-- Modelled from the spec: `convert_scale` rescales each quantity of a
variable-length argument list, returning results in argument order. -/
def convert_scale (f : QKind → ℚ) (qs : List PhysQuantity) : List PhysQuantity :=
  qs.map (scale_quantity f)

/-- Payload projection used when destructuring `convert_scale` results. -/
def num_vec : NumArray → List ℚ
  | .vec v => v
  | _ => []

/-- Payload projection used when destructuring `convert_scale` results. -/
def num_scalar : NumArray → ℚ
  | .scalar x => x
  | _ => 0

/-- Payload projection used when destructuring `convert_scale` results. -/
def num_mat : NumArray → List (List ℚ)
  | .mat m => m
  | _ => []

/-! ## Kappa grid for the fit table (`build_tables`, lines 118-134) -/

/-- `np.logspace(start, stop, num, base=np.e)`: `num` points whose
exponents are uniformly spaced between `start` and `stop`. -/
noncomputable def np_logspace (start stop : ℝ) (num : ℕ) : List ℝ :=
  (List.range num).map
    (fun i : ℕ => Real.exp (start + (i : ℝ) * ((stop - start) / ((num - 1 : ℕ) : ℝ))))

/-- The fit-table kappa grid of `build_tables` (lines 118-134):
`int(num_points*0.7)` points log-spaced in `[1, 10]`,
`int(num_points*0.2)+1` points in `[10, 100]` with the first dropped, and
`int(num_points*0.1)+1` points in `[100, 1000]` with the first dropped. -/
noncomputable def build_tables_kappa (num_points : ℕ) : List ℝ :=
  np_logspace (Real.log 1) (Real.log 10) (num_points * 7 / 10) ++
  ((np_logspace (Real.log 10) (Real.log 100) (num_points * 2 / 10 + 1)).drop 1) ++
  ((np_logspace (Real.log 100) (Real.log 1000) (num_points / 10 + 1)).drop 1)

/-- A list is log-uniform with ratio `r` if consecutive entries differ by
the factor `r`. -/
def logUniform (r : ℝ) (l : List ℝ) : Prop :=
  List.Chain' (fun a b => b = a * r) l

/-- Exponent-side view of the `num_points = 50` grid: the grid point for
token `n` is `10 ^ (n / 340)`. -/
noncomputable def expo340 (n : ℕ) : ℝ :=
  Real.exp ((n : ℝ) / 340 * Real.log 10)

/-- Exponent tokens (in units of `log 10 / 340`) of the first segment. -/
def seg1N : List ℕ := (List.range 35).map (fun i => 10 * i)

/-- Exponent tokens of the second segment, boundary point included. -/
def seg2N : List ℕ := (List.range 11).map (fun i => 340 + 34 * i)

/-- Exponent tokens of the third segment, boundary point included. -/
def seg3N : List ℕ := (List.range 6).map (fun i => 680 + 68 * i)

/-- Exponent tokens of the whole concatenated `num_points = 50` grid. -/
def expNum50 : List ℕ := seg1N ++ (seg2N.drop 1) ++ (seg3N.drop 1)

/-- Executable chain check (used because `List.Chain'` has no
kernel-reducible decidability instance). -/
def chainB (r : ℕ → ℕ → Bool) : List ℕ → Bool
  | [] => true
  | [_] => true
  | a :: b :: l => r a b && chainB r (b :: l)

/-! ## Zenith-angle simulation (`_simulate_zenith_angles`, lines 275-320)

The two stochastic ingredients are passed in as oracles: `dts k` is the
`k`-th exponential time increment drawn for the current direction, and
`zaf t` is the zenith angle the external coordinate transform returns for
the current direction at decimal-year time `t`. -/

/-- One iteration family of the acceptance loop.  `i` is the draw counter
(the source's `i` after its increment); the fuel argument only certifies
termination and is always at least the number of remaining iterations.
Returns `(accepted time, accepted zenith angle, stuck flag)`. -/
def zenithIterAux (θ : ℚ) (zaf : ℚ → ℚ) (dts : ℕ → ℚ) (base : ℚ) :
    ℕ → ℕ → ℚ × ℚ × Bool
  | 0, i => (base + dts i, θ, true)
  | fuel + 1, i =>
    let t := base + dts i
    let za := zaf t
    if 100 < i then (t, θ, true)
    else if za ≤ θ then (t, za, false)
    else zenithIterAux θ zaf dts base fuel (i + 1)

/-- The acceptance loop for one direction: draws are numbered from 1, and
draw 101 is force-accepted at the threshold (source lines 296-309). -/
def zenithOne (θ : ℚ) (zaf : ℚ → ℚ) (dts : ℕ → ℚ) (base : ℚ) : ℚ × ℚ × Bool :=
  zenithIterAux θ zaf dts base 101 1

/-- The outer loop over directions (lines 293-313): direction `j`'s base
time is the previously accepted timestamp (`start_year` for the first). -/
def zenithSeq (θ : ℚ) (dts : ℕ → ℕ → ℚ) (zaf : ℕ → ℚ → ℚ) :
    ℕ → ℕ → ℚ → List (ℚ × ℚ × Bool)
  | _, 0, _ => []
  | j, n + 1, tprev =>
    let r := zenithOne θ (zaf j) (dts j) tprev
    r :: zenithSeq θ dts zaf (j + 1) n r.1

/-- `_simulate_zenith_angles`: returns the zenith-angle list for `n`
directions (timestamps and stuck flags are internal state). -/
def simulate_zenith_angles (θ start_year : ℚ) (n : ℕ)
    (dts : ℕ → ℕ → ℚ) (zaf : ℕ → ℚ → ℚ) : List ℚ :=
  (zenithSeq θ dts zaf 0 n start_year).map (fun x => x.2.1)

/-! ## Simulation (`simulate`, lines 322-464) -/

/-- Lines 332-334: when a selection is active (`data.source.N` smaller
than the table), keep exactly the selected rows, in selection order. -/
def handle_selection (N : ℕ) (selection : List ℕ) (eps : List ℚ) : List ℚ :=
  if N < eps.length then selection.map (fun i => eps.getD i 0) else eps

/-- Lines 433-437: `np.where(Edet >= Eth)` and indexing of the detected
energies, arrival directions and source labels by those indices. -/
def cut_on_Eth (Eth : ℚ) (Edet : List ℚ) (dirs : List Q3) (labels : List ℤ) :
    List ℚ × List Q3 × List ℤ :=
  let inds := (List.range Edet.length).filter (fun i => decide (Eth ≤ Edet.getD i 0))
  (inds.map (fun i => Edet.getD i 0),
   inds.map (fun i => dirs.getD i default),
   inds.map (fun i => labels.getD i 0))

/-- The `simulation_input` assembly of `simulate` (lines 330-406):
selection, scale conversion, base fields, then the mode-dependent fields.
In `joint_gmf` mode the model's `ptype` attribute and its nuclear-table
entry are read here, before any sampler call; a missing attribute or a
missing table key is an error. -/
def build_simulation_input (atype : String) (m : ModelP) (src : SourceP)
    (det : DetectorP) (nuc : List (String × ℤ × ℤ)) (sim_table : List ℚ)
    (f : QKind → ℚ) : Except String SimInput :=
  let eps0 := handle_selection src.N src.selection sim_table
  let cs := convert_scale f
    [⟨.distance, .vec src.distance⟩, ⟨.exposureTime, .scalar det.alpha_T⟩,
     ⟨.tableValues, .vec eps0⟩, ⟨.flux, .scalar m.F0⟩, ⟨.luminosity, .scalar m.L⟩]
  let D := num_vec (cs.getD 0 default).val
  let alpha_T := num_scalar (cs.getD 1 default).val
  let eps := num_vec (cs.getD 2 default).val
  let F0 := num_scalar (cs.getD 3 default).val
  let L := num_scalar (cs.getD 4 default).val
  let flux := match src.flux with
    | some fl => if fl.isEmpty then List.replicate src.N 0 else fl
    | none => List.replicate src.N 0
  let base : SimInput :=
    { kappa_d := det.kappa_d, Ns := src.distance.length, varpi := src.unit_vector,
      D := D, A := det.area, a0 := det.lat, lon := det.lon,
      theta_m := det.threshold_zenith_angle, alpha_T := alpha_T, eps := eps,
      L := L, F0 := F0, distance := src.distance, flux := flux,
      kappa := none, B := none, alpha := none, Eth := none, Eerr := none, Z := none }
  if atype == gmf_type then
    match m.ptype with
    | none => Except.error "AttributeError: Model object has no attribute ptype"
    | some p =>
      match lookup_nuc nuc p with
      | none => Except.error "KeyError: unknown particle type"
      | some az =>
        Except.ok { base with B := some m.B, alpha := some m.alpha,
                              Eth := some m.Eth_sim,
                              Eerr := some det.energy_uncertainty, Z := some az.2 }
  else if atype == joint_type then
    Except.ok { base with B := some m.B, alpha := some m.alpha,
                          Eth := some m.Eth_sim,
                          Eerr := some det.energy_uncertainty }
  else if atype == E_loss_type then
    Except.ok { base with kappa := some m.kappa, alpha := some m.alpha,
                          Eth := some m.Eth_sim,
                          Eerr := some det.energy_uncertainty }
  else
    Except.ok { base with kappa := some m.kappa }

/-- The post-sampling half of `simulate` (lines 417-464): label shift,
energy-threshold cut on `model.Eth` in the energy-aware modes, zenith
simulation, and the rebuild of the UHECR dataset. -/
def simulate_post (atype : String) (m : ModelP) (det : DetectorP) (out : SimOut)
    (dts : ℕ → ℕ → ℚ) (zaf : ℕ → ℚ → ℚ) : UhecrP :=
  let labels0 := out.lambdas.map (fun l => l - 1)
  let cutres :=
    if energy_mode atype then cut_on_Eth m.Eth out.Edet out.arrival_direction labels0
    else (out.Edet, out.arrival_direction, labels0)
  let n := cutres.2.1.length
  let zas := simulate_zenith_angles det.threshold_zenith_angle det.start_year n dts zaf
  { label := "sim_uhecr", N := n, unit_vector := cutres.2.1,
    energy := if energy_mode atype then some cutres.1 else none,
    zenith_angle := zas,
    A := List.replicate n det.area,
    source_labels := cutres.2.2,
    ptype := if atype == gmf_type then m.ptype.getD "p" else "p" }

/-- `simulate` end to end: assemble the mode-dependent input (which can
fail), then run the opaque simulation sampler and post-process. -/
def simulate (atype : String) (m : ModelP) (src : SourceP) (det : DetectorP)
    (nuc : List (String × ℤ × ℤ)) (sim_table : List ℚ) (f : QKind → ℚ)
    (sampler : SimInput → SimOut) (dts : ℕ → ℕ → ℚ) (zaf : ℕ → ℚ → ℚ) :
    Except String UhecrP :=
  (build_simulation_input atype m src det nuc sim_table f).map
    (fun inp => simulate_post atype m det (sampler inp) dts zaf)

/-! ## Fit-input preparation (`_prepare_fit_inputs`, lines 466-522) -/

/-- Split a flat buffer into `r` consecutive rows of `c` entries. -/
def chunkN : ℕ → ℕ → List ℚ → List (List ℚ)
  | 0, _, _ => []
  | r + 1, c, l => l.take c :: chunkN r c (l.drop c)

/-- `np.ndarray.resize((r, c))`: reshape the flattened C-order buffer to
`(r, c)`, truncating or zero-padding when the total size changes. -/
def np_resize (flat : List ℚ) (r c : ℕ) : List (List ℚ) :=
  chunkN r c (List.take (r * c) (flat ++ List.replicate (r * c) 0))

/-- The driver state read by `_prepare_fit_inputs`: integral tables
(`tables.table` as collected, `tables.kappa`), energy grids, source and
detector fields, and the current UHECR dataset. -/
structure PrepIn where
  table : List (List (List ℚ))
  kappa : List ℚ
  E_grid : List ℚ
  Earr_grid : List (List ℚ)
  sourceN : ℕ
  selection : List ℕ
  distance : List ℚ
  alpha_T : ℚ
  uhecrN : ℕ
  arrival_direction : List Q3
  A_det : List ℚ
  zenith_angle : List ℚ
  energy : List ℚ
  analysis_type : String
  Eth : ℚ
  Eerr : ℚ
  kappa_d : ℚ
deriving DecidableEq

/-- The `fit_input` dictionary (lines 494-522); `Option` fields are only
present in the energy-aware modes. -/
structure FitInput where
  Ns : ℕ
  D : List ℚ
  N : ℕ
  arrival_direction : List Q3
  A : List ℚ
  alpha_T : ℚ
  Ngrid : ℕ
  eps : List (List ℚ)
  kappa_grid : List ℚ
  zenith_angle : List ℚ
  Edet : Option (List ℚ)
  Eth : Option ℚ
  Eerr : Option ℚ
  E_grid : Option (List ℚ)
  Earr_grid : Option (List (List ℚ))
  kappa_d : ℚ
deriving DecidableEq

/-- `_prepare_fit_inputs` (lines 466-522): resize the collected fit table
to `Earr_grid`'s shape, filter by the active selection, append the zero
background row to `Earr_grid`, scale-convert, and assemble `fit_input`. -/
def prepare_fit_inputs (f : QKind → ℚ) (x : PrepIn) : FitInput :=
  let rows := x.Earr_grid.length
  let cols := (x.Earr_grid.headD []).length
  let eps_fit0 := np_resize (x.table.flatten.flatten) rows cols
  let eps_fit1 :=
    if x.sourceN < eps_fit0.length
    then x.selection.map (fun i => eps_fit0.getD i []) else eps_fit0
  let earr1 :=
    if x.sourceN < eps_fit0.length
    then x.selection.map (fun i => x.Earr_grid.getD i []) else x.Earr_grid
  let earr2 := earr1 ++ [x.E_grid.map (fun _ => (0 : ℚ))]
  let cs := convert_scale f
    [⟨.distance, .vec x.distance⟩, ⟨.exposureTime, .scalar x.alpha_T⟩,
     ⟨.tableValues, .mat eps_fit1⟩]
  let D := num_vec (cs.getD 0 default).val
  let alpha_T := num_scalar (cs.getD 1 default).val
  let eps_fit := num_mat (cs.getD 2 default).val
  { Ns := x.sourceN, D := D, N := x.uhecrN,
    arrival_direction := x.arrival_direction, A := x.A_det, alpha_T := alpha_T,
    Ngrid := x.kappa.length, eps := eps_fit, kappa_grid := x.kappa,
    zenith_angle := x.zenith_angle,
    Edet := if energy_mode x.analysis_type then some x.energy else none,
    Eth := if energy_mode x.analysis_type then some x.Eth else none,
    Eerr := if energy_mode x.analysis_type then some x.Eerr else none,
    E_grid := if energy_mode x.analysis_type then some x.E_grid else none,
    Earr_grid := if energy_mode x.analysis_type then some earr2 else none,
    kappa_d := x.kappa_d }


/-! ## Helper lemmas -/

theorem chainB_sound (r : ℕ → ℕ → Bool) :
    ∀ l : List ℕ, chainB r l = true → List.Chain' (fun a b => r a b = true) l := by
  intro l
  induction l with
  | nil => intro _; exact List.chain'_nil
  | cons a l ih =>
    cases l with
    | nil => intro _; simp
    | cons b l' =>
      intro h
      simp only [chainB, Bool.and_eq_true] at h
      exact List.Chain'.cons h.1 (ih h.2)

theorem sel_map_pair {β : Type} (p : ℚ → Bool) (db : β) :
    ∀ (a : List ℚ) (b : List β), b.length = a.length →
      ((List.range a.length).filter (fun i => p (a.getD i 0))).map (fun i => b.getD i db)
        = ((a.zip b).filter (fun q => p q.1)).map Prod.snd := by
  intro a
  induction a with
  | nil => intro b h; simp
  | cons x a' ih =>
    intro b h
    cases b with
    | nil => simp at h
    | cons y b' =>
      simp only [List.length_cons] at h
      have h' : b'.length = a'.length := by omega
      have key := ih b' h'
      have e1 : ((fun i => (y :: b').getD i db) ∘ Nat.succ) = fun i => b'.getD i db := by
        funext i; simp
      have e2 : ((fun i => p ((x :: a').getD i 0)) ∘ Nat.succ) = fun i => p (a'.getD i 0) := by
        funext i; simp
      rw [show (x :: a').length = a'.length + 1 from rfl, List.range_succ_eq_map,
        List.filter_cons, List.filter_map, List.zip_cons_cons, List.filter_cons]
      by_cases hp : p x = true
      · simp only [List.getD_cons_zero, hp, if_pos, List.map_cons, List.map_map, e1, e2, key]
      · simp only [List.getD_cons_zero, hp, Bool.false_eq_true, if_neg, if_false,
          List.map_map, e1, e2, key]

theorem filter_zip_self (p : ℚ → Bool) :
    ∀ a : List ℚ, ((a.zip a).filter (fun q => p q.1)).map Prod.snd = a.filter p := by
  intro a
  induction a with
  | nil => simp
  | cons x a' ih =>
    by_cases hp : p x = true
    · simp [List.filter_cons, hp, ih]
    · simp [List.filter_cons, hp, ih]

theorem sel_map_self (p : ℚ → Bool) (a : List ℚ) :
    ((List.range a.length).filter (fun i => p (a.getD i 0))).map (fun i => a.getD i 0)
      = a.filter p := by
  rw [sel_map_pair p (0 : ℚ) a a rfl, filter_zip_self]

theorem chunkN_length : ∀ (r c : ℕ) (l : List ℚ), (chunkN r c l).length = r := by
  intro r
  induction r with
  | zero => intro c l; rfl
  | succ n ih => intro c l; simp [chunkN, ih]

theorem chunkN_flatten (c : ℕ) :
    ∀ (m : List (List ℚ)), (∀ row ∈ m, row.length = c) →
      chunkN m.length c m.flatten = m := by
  intro m
  induction m with
  | nil => intro _; rfl
  | cons row rest ih =>
    intro h
    have hr : row.length = c := h row (by simp)
    simp only [List.length_cons, chunkN, List.flatten_cons]
    rw [← hr, List.take_left, List.drop_left, hr,
      ih (fun r hrr => h r (by simp [hrr]))]

theorem flatten_length_rect (c : ℕ) :
    ∀ (m : List (List ℚ)), (∀ row ∈ m, row.length = c) →
      m.flatten.length = m.length * c := by
  intro m
  induction m with
  | nil => intro _; simp
  | cons row rest ih =>
    intro h
    simp only [List.flatten_cons, List.length_append, List.length_cons]
    rw [h row (by simp), ih (fun r hrr => h r (by simp [hrr]))]
    ring

theorem np_resize_exact (c : ℕ) (m : List (List ℚ)) (h : ∀ row ∈ m, row.length = c) :
    np_resize m.flatten m.length c = m := by
  unfold np_resize
  have hl : m.flatten.length = m.length * c := flatten_length_rect c m h
  rw [← hl, List.take_left, chunkN_flatten c m h]

/-! ## Zenith-loop lemmas -/

theorem zenithIterAux_za_le (θ : ℚ) (zaf : ℚ → ℚ) (dts : ℕ → ℚ) (base : ℚ) :
    ∀ fuel i, (zenithIterAux θ zaf dts base fuel i).2.1 ≤ θ := by
  intro fuel
  induction fuel with
  | zero => intro i; simp [zenithIterAux]
  | succ n ih =>
    intro i
    simp only [zenithIterAux]
    split
    · simp
    · split
      · simpa using by assumption
      · exact ih (i + 1)

theorem zenithIterAux_stuck_eq (θ : ℚ) (zaf : ℚ → ℚ) (dts : ℕ → ℚ) (base : ℚ) :
    ∀ fuel i, (zenithIterAux θ zaf dts base fuel i).2.2 = true →
      (zenithIterAux θ zaf dts base fuel i).2.1 = θ := by
  intro fuel
  induction fuel with
  | zero => intro i _; simp [zenithIterAux]
  | succ n ih =>
    intro i
    simp only [zenithIterAux]
    split
    · intro _; rfl
    · split
      · intro hh; simp at hh
      · exact ih (i + 1)

theorem zenithIterAux_base_le (θ : ℚ) (zaf : ℚ → ℚ) (dts : ℕ → ℚ) (base : ℚ)
    (hdts : ∀ k, 0 ≤ dts k) :
    ∀ fuel i, base ≤ (zenithIterAux θ zaf dts base fuel i).1 := by
  intro fuel
  induction fuel with
  | zero => intro i; simpa [zenithIterAux] using hdts i
  | succ n ih =>
    intro i
    simp only [zenithIterAux]
    split
    · simpa using hdts i
    · split
      · simpa using hdts i
      · exact ih (i + 1)

theorem zenithIterAux_forced (θ : ℚ) (zaf : ℚ → ℚ) (dts : ℕ → ℚ) (base : ℚ) :
    ∀ fuel i, i + fuel = 102 → 1 ≤ i → i ≤ 101 →
      (∀ k, i ≤ k → k ≤ 100 → θ < zaf (base + dts k)) →
      zenithIterAux θ zaf dts base fuel i = (base + dts 101, θ, true) := by
  intro fuel
  induction fuel with
  | zero => intro i h1 _ h3 _; omega
  | succ n ih =>
    intro i h1 h2 h3 hfail
    simp only [zenithIterAux]
    split
    · have : i = 101 := by omega
      subst this
      rfl
    · have hi : i ≤ 100 := by omega
      have hza := hfail i (le_refl i) hi
      rw [if_neg (by exact not_le.mpr hza)]
      exact ih (i + 1) (by omega) (by omega) (by omega)
        (fun k hk1 hk2 => hfail k (by omega) hk2)

theorem zenithSeq_length (θ : ℚ) (dts : ℕ → ℕ → ℚ) (zaf : ℕ → ℚ → ℚ) :
    ∀ (n j : ℕ) (tprev : ℚ), (zenithSeq θ dts zaf j n tprev).length = n := by
  intro n
  induction n with
  | zero => intro j tprev; rfl
  | succ k ih => intro j tprev; simp [zenithSeq, ih]

theorem zenithSeq_mem (θ : ℚ) (dts : ℕ → ℕ → ℚ) (zaf : ℕ → ℚ → ℚ) :
    ∀ (n j : ℕ) (tprev : ℚ) (x : ℚ × ℚ × Bool), x ∈ zenithSeq θ dts zaf j n tprev →
      ∃ j' base, x = zenithOne θ (zaf j') (dts j') base := by
  intro n
  induction n with
  | zero => intro j tprev x hx; simp [zenithSeq] at hx
  | succ k ih =>
    intro j tprev x hx
    simp only [zenithSeq, List.mem_cons] at hx
    cases hx with
    | inl h => exact ⟨j, tprev, h⟩
    | inr h => exact ih (j + 1) _ x h

theorem zenithSeq_times_chain (θ : ℚ) (dts : ℕ → ℕ → ℚ) (zaf : ℕ → ℚ → ℚ)
    (hdts : ∀ j k, 0 ≤ dts j k) :
    ∀ (n j : ℕ) (tprev : ℚ),
      List.Chain' (· ≤ ·) (tprev :: (zenithSeq θ dts zaf j n tprev).map (fun x => x.1)) := by
  intro n
  induction n with
  | zero => intro j tprev; simp [zenithSeq]
  | succ k ih =>
    intro j tprev
    simp only [zenithSeq, List.map_cons]
    exact List.Chain'.cons (zenithIterAux_base_le θ (zaf j) (dts j) tprev (hdts j) 101 1)
      (ih (j + 1) _)

/-! ## Kappa-grid lemmas (claim C1) -/

theorem log_hundred : Real.log 100 = 2 * Real.log 10 := by
  rw [show (100 : ℝ) = 10 ^ 2 by norm_num, Real.log_pow]
  push_cast; ring

theorem log_thousand : Real.log 1000 = 3 * Real.log 10 := by
  rw [show (1000 : ℝ) = 10 ^ 3 by norm_num, Real.log_pow]
  push_cast; ring

theorem seg1_eq : np_logspace (Real.log 1) (Real.log 10) 35 = seg1N.map expo340 := by
  unfold np_logspace seg1N
  rw [List.map_map]
  apply List.map_congr_left
  intro i _
  simp only [Function.comp]
  unfold expo340
  congr 1
  rw [Real.log_one]
  push_cast
  ring

theorem seg2_eq : np_logspace (Real.log 10) (Real.log 100) 11 = seg2N.map expo340 := by
  unfold np_logspace seg2N
  rw [List.map_map]
  apply List.map_congr_left
  intro i _
  simp only [Function.comp]
  unfold expo340
  congr 1
  rw [log_hundred]
  push_cast
  ring

theorem seg3_eq : np_logspace (Real.log 100) (Real.log 1000) 6 = seg3N.map expo340 := by
  unfold np_logspace seg3N
  rw [List.map_map]
  apply List.map_congr_left
  intro i _
  simp only [Function.comp]
  unfold expo340
  congr 1
  rw [log_hundred, log_thousand]
  push_cast
  ring

theorem expo340_lt (a b : ℕ) (h : a < b) : expo340 a < expo340 b := by
  unfold expo340
  rw [Real.exp_lt_exp]
  have h10 : (0 : ℝ) < Real.log 10 := Real.log_pos (by norm_num)
  have hc : (a : ℝ) < (b : ℝ) := by exact_mod_cast h
  have : (a : ℝ) / 340 < (b : ℝ) / 340 := by linarith
  nlinarith

theorem expo340_step (c : ℕ) (a b : ℕ) (h : b = a + c) :
    expo340 b = expo340 a * Real.exp ((c : ℝ) / 340 * Real.log 10) := by
  subst h
  unfold expo340
  rw [← Real.exp_add]
  congr 1
  push_cast
  ring

theorem grid50_eq : build_tables_kappa 50 = expNum50.map expo340 := by
  unfold build_tables_kappa expNum50
  rw [show (50 * 7 / 10 : ℕ) = 35 by norm_num, show (50 * 2 / 10 + 1 : ℕ) = 11 by norm_num,
    show (50 / 10 + 1 : ℕ) = 6 by norm_num, seg1_eq, seg2_eq, seg3_eq,
    List.map_append, List.map_append, List.map_drop, List.map_drop]

theorem grid50_chain : List.Chain' (· < ·) (build_tables_kappa 50) := by
  rw [grid50_eq]
  have hb : chainB (fun a b => decide (a < b)) expNum50 = true := by decide
  have hc := chainB_sound _ _ hb
  have hc2 : List.Chain' (· < ·) expNum50 :=
    List.Chain'.imp (fun a b h => of_decide_eq_true h) hc
  exact List.chain'_map_of_chain' expo340 (fun a b h => expo340_lt a b h) hc2

theorem grid50_nodup : (build_tables_kappa 50).Nodup := by
  have h := List.chain'_iff_pairwise.mp grid50_chain
  exact h.imp (fun hlt => ne_of_lt hlt)

theorem seg_logUniform (c : ℕ) (l : List ℕ)
    (h : chainB (fun a b => decide (b = a + c)) l = true) :
    logUniform (Real.exp ((c : ℝ) / 340 * Real.log 10)) (l.map expo340) := by
  have hc := chainB_sound _ _ h
  have hc2 : List.Chain' (fun a b => b = a + c) l :=
    List.Chain'.imp (fun a b hh => of_decide_eq_true hh) hc
  exact List.chain'_map_of_chain' expo340 (fun a b hh => expo340_step c a b hh) hc2

theorem ratio1 : Real.exp ((10 : ℝ) / 340 * Real.log 10) = Real.exp (Real.log 10 / 34) := by
  congr 1; ring

theorem ratio2 : Real.exp ((34 : ℝ) / 340 * Real.log 10) = Real.exp (Real.log 10 / 10) := by
  congr 1; ring

theorem ratio3 : Real.exp ((68 : ℝ) / 340 * Real.log 10) = Real.exp (Real.log 10 / 5) := by
  congr 1; ring

theorem expo340_zero : expo340 0 = 1 := by
  unfold expo340; norm_num

theorem expo340_340 : expo340 340 = 10 := by
  unfold expo340
  norm_num
  exact Real.exp_log (by norm_num)

theorem expo340_680 : expo340 680 = 100 := by
  unfold expo340
  rw [show ((680 : ℕ) : ℝ) / 340 * Real.log 10 = Real.log 100 by
    rw [log_hundred]; push_cast; ring]
  exact Real.exp_log (by norm_num)

theorem seg1_head : (np_logspace (Real.log 1) (Real.log 10) 35).head? = some 1 := by
  rw [seg1_eq, List.head?_map, show seg1N.head? = some 0 by decide]
  simp [expo340_zero]

theorem seg1_last : (np_logspace (Real.log 1) (Real.log 10) 35).getLast? = some 10 := by
  rw [seg1_eq, List.getLast?_map, show seg1N.getLast? = some 340 by decide]
  simp [expo340_340]

theorem seg2_head : (np_logspace (Real.log 10) (Real.log 100) 11).head? = some 10 := by
  rw [seg2_eq, List.head?_map, show seg2N.head? = some 340 by decide]
  simp [expo340_340]

theorem seg3_head : (np_logspace (Real.log 100) (Real.log 1000) 6).head? = some 100 := by
  rw [seg3_eq, List.head?_map, show seg3N.head? = some 680 by decide]
  simp [expo340_680]

theorem seg1_lu : logUniform (Real.exp (Real.log 10 / 34))
    (np_logspace (Real.log 1) (Real.log 10) 35) := by
  rw [seg1_eq, ← ratio1]
  exact seg_logUniform 10 seg1N (by decide)

theorem seg2_lu : logUniform (Real.exp (Real.log 10 / 10))
    ((np_logspace (Real.log 10) (Real.log 100) 11).drop 1) := by
  rw [seg2_eq, ← ratio2, ← List.map_drop]
  exact seg_logUniform 34 (seg2N.drop 1) (by decide)

theorem seg3_lu : logUniform (Real.exp (Real.log 10 / 5))
    ((np_logspace (Real.log 100) (Real.log 1000) 6).drop 1) := by
  rw [seg3_eq, ← ratio3, ← List.map_drop]
  exact seg_logUniform 68 (seg3N.drop 1) (by decide)

/-- Claim C1: for `num_points = 50`, `build_tables` produces the
concatenation of 35 points log-spaced in `[1, 10]`, 10 points in
`(10, 100]` (the 11-point log-spaced segment with the duplicate boundary
point 10 dropped) and 5 points in `(100, 1000]` (the 6-point segment with
the duplicate boundary point 100 dropped); the concatenated grid is
strictly increasing, has no duplicates, and each segment is individually
log-uniform (constant consecutive ratio). -/
theorem claim_C1_kappa_grid_construction :
    build_tables_kappa 50 =
      np_logspace (Real.log 1) (Real.log 10) 35 ++
      ((np_logspace (Real.log 10) (Real.log 100) 11).drop 1) ++
      ((np_logspace (Real.log 100) (Real.log 1000) 6).drop 1)
    ∧ (np_logspace (Real.log 1) (Real.log 10) 35).length = 35
    ∧ ((np_logspace (Real.log 10) (Real.log 100) 11).drop 1).length = 10
    ∧ ((np_logspace (Real.log 100) (Real.log 1000) 6).drop 1).length = 5
    ∧ (build_tables_kappa 50).length = 50
    ∧ (np_logspace (Real.log 1) (Real.log 10) 35).head? = some 1
    ∧ (np_logspace (Real.log 1) (Real.log 10) 35).getLast? = some 10
    ∧ (np_logspace (Real.log 10) (Real.log 100) 11).head? = some 10
    ∧ (np_logspace (Real.log 100) (Real.log 1000) 6).head? = some 100
    ∧ List.Chain' (· < ·) (build_tables_kappa 50)
    ∧ (build_tables_kappa 50).Nodup
    ∧ logUniform (Real.exp (Real.log 10 / 34)) (np_logspace (Real.log 1) (Real.log 10) 35)
    ∧ logUniform (Real.exp (Real.log 10 / 10))
        ((np_logspace (Real.log 10) (Real.log 100) 11).drop 1)
    ∧ logUniform (Real.exp (Real.log 10 / 5))
        ((np_logspace (Real.log 100) (Real.log 1000) 6).drop 1) := by
  refine ⟨?_, ?_, ?_, ?_, ?_, seg1_head, seg1_last, seg2_head, seg3_head,
    grid50_chain, grid50_nodup, seg1_lu, seg2_lu, seg3_lu⟩
  · unfold build_tables_kappa
    norm_num
  · simp [np_logspace]
  · simp [np_logspace]
  · simp [np_logspace]
  · rw [grid50_eq, List.length_map, show expNum50.length = 50 by decide]

/-! ## Claim C3: energy-threshold cut -/

/-- Claim C3: in the `energy_loss`, `joint` and `joint_gmf` modes the
rebuilt dataset's energies are exactly the detected energies at or above
the fit threshold `model.Eth`, every kept energy satisfies the threshold,
the kept arrival directions and source labels are the entries at the same
indices as the surviving energies, and the result does not depend on the
lower simulation threshold `Eth_sim`. -/
theorem claim_C3_energy_threshold_cut (atype : String) (m : ModelP) (det : DetectorP)
    (out : SimOut) (dts : ℕ → ℕ → ℚ) (zaf : ℕ → ℚ → ℚ)
    (hmode : energy_mode atype = true)
    (hd : out.arrival_direction.length = out.Edet.length)
    (hl : out.lambdas.length = out.Edet.length) :
    (simulate_post atype m det out dts zaf).energy
        = some (out.Edet.filter (fun e => decide (m.Eth ≤ e)))
    ∧ (∀ es, (simulate_post atype m det out dts zaf).energy = some es →
        ∀ e ∈ es, m.Eth ≤ e)
    ∧ (simulate_post atype m det out dts zaf).unit_vector
        = ((out.Edet.zip out.arrival_direction).filter
            (fun q => decide (m.Eth ≤ q.1))).map Prod.snd
    ∧ (simulate_post atype m det out dts zaf).source_labels
        = ((out.Edet.zip (out.lambdas.map (fun l => l - 1))).filter
            (fun q => decide (m.Eth ≤ q.1))).map Prod.snd
    ∧ (∀ v : ℚ, simulate_post atype
        { m with Eth_sim := v } det out dts zaf = simulate_post atype m det out dts zaf) := by
  have hmap : (out.lambdas.map (fun l => l - 1)).length = out.Edet.length := by
    rw [List.length_map]; exact hl
  have he : (simulate_post atype m det out dts zaf).energy
      = some (out.Edet.filter (fun e => decide (m.Eth ≤ e))) := by
    simp only [simulate_post, hmode, if_true, cut_on_Eth]
    exact congrArg some (sel_map_self (fun e => decide (m.Eth ≤ e)) out.Edet)
  refine ⟨he, ?_, ?_, ?_, ?_⟩
  · intro es hes e hee
    rw [he] at hes
    cases hes
    exact of_decide_eq_true (List.mem_filter.mp hee).2
  · simp only [simulate_post, hmode, if_true, cut_on_Eth]
    exact sel_map_pair (fun e => decide (m.Eth ≤ e)) default out.Edet
      out.arrival_direction hd
  · simp only [simulate_post, hmode, if_true, cut_on_Eth]
    exact sel_map_pair (fun e => decide (m.Eth ≤ e)) 0 out.Edet
      (out.lambdas.map (fun l => l - 1)) hmap
  · intro v
    rfl

/-- Concrete witness for claim C3: threshold 50 keeps exactly the first
of the two simulated events. -/
theorem claim_C3_witness :
    energy_mode joint_type = true
    ∧ (simulate_post joint_type ⟨0, 0, 0, 0, 0, 50, 20, none⟩
        ⟨0, 0, 0, 0, 1, 0, 0, 2004⟩
        ⟨0, [⟨1, 0, 0⟩, ⟨0, 1, 0⟩], [1, 2], [60, 40], [], []⟩
        (fun _ _ => 0) (fun _ _ => 0)).energy
        = some ([60, 40].filter (fun e => decide ((50 : ℚ) ≤ e))) := by
  refine ⟨by decide, ?_⟩
  exact (claim_C3_energy_threshold_cut joint_type ⟨0, 0, 0, 0, 0, 50, 20, none⟩
    ⟨0, 0, 0, 0, 1, 0, 0, 2004⟩
    ⟨0, [⟨1, 0, 0⟩, ⟨0, 1, 0⟩], [1, 2], [60, 40], [], []⟩
    (fun _ _ => 0) (fun _ _ => 0) (by decide) (by decide) (by decide)).1

/-! ## Claim C5: bounded zenith retry -/

/-- Claim C5: the zenith simulation produces one `(time, angle, stuck)`
triple per direction (processing never aborts), every produced angle is
at or below the detector threshold (hence at-or-below-threshold OR
stuck), a stuck event's angle is exactly the threshold, and if none of
draws 1..100 is accepted the event is force-accepted at the threshold on
draw 101 with the stuck flag set. -/
theorem claim_C5_zenith_bounded_retry (θ start_year : ℚ) (n : ℕ)
    (dts : ℕ → ℕ → ℚ) (zaf : ℕ → ℚ → ℚ) :
    (zenithSeq θ dts zaf 0 n start_year).length = n
    ∧ (simulate_zenith_angles θ start_year n dts zaf).length = n
    ∧ (∀ x ∈ zenithSeq θ dts zaf 0 n start_year, x.2.1 ≤ θ ∨ x.2.2 = true)
    ∧ (∀ x ∈ zenithSeq θ dts zaf 0 n start_year, x.2.2 = true → x.2.1 = θ)
    ∧ (∀ (j : ℕ) (base : ℚ),
        (∀ k, 1 ≤ k → k ≤ 100 → θ < zaf j (base + dts j k)) →
        zenithOne θ (zaf j) (dts j) base = (base + dts j 101, θ, true)) := by
  refine ⟨zenithSeq_length θ dts zaf n 0 start_year, ?_, ?_, ?_, ?_⟩
  · unfold simulate_zenith_angles
    rw [List.length_map]
    exact zenithSeq_length θ dts zaf n 0 start_year
  · intro x hx
    obtain ⟨j', base, hxeq⟩ := zenithSeq_mem θ dts zaf n 0 start_year x hx
    subst hxeq
    exact Or.inl (zenithIterAux_za_le θ (zaf j') (dts j') base 101 1)
  · intro x hx
    obtain ⟨j', base, hxeq⟩ := zenithSeq_mem θ dts zaf n 0 start_year x hx
    subst hxeq
    exact zenithIterAux_stuck_eq θ (zaf j') (dts j') base 101 1
  · intro j base hfail
    exact zenithIterAux_forced θ (zaf j) (dts j) base 101 1 rfl (by omega) (by omega)
      (fun k hk1 hk2 => hfail k hk1 hk2)

/-- Concrete witness for claim C5: a zenith angle that is always above
the threshold gets force-accepted at the threshold on draw 101. -/
theorem claim_C5_witness :
    (zenithSeq 1 (fun _ _ => 2) (fun _ _ => 5) 0 1 0).length = 1
    ∧ zenithOne 1 (fun _ => 5) (fun _ => 2) 0 = (0 + 2, 1, true) := by
  have h := claim_C5_zenith_bounded_retry 1 0 1 (fun _ _ => 2) (fun _ _ => 5)
  exact ⟨h.1, h.2.2.2.2 0 0 (fun k _ _ => by norm_num)⟩

/-! ## Claim C6: timestamp monotonicity -/

/-- Claim C6: with nonnegative exponential increments, the accepted
timestamps are monotonically non-decreasing, starting from the start
epoch, because each direction's draws are based at the previously
accepted timestamp. -/
theorem claim_C6_timestamps_monotone (θ start_year : ℚ) (n : ℕ)
    (dts : ℕ → ℕ → ℚ) (zaf : ℕ → ℚ → ℚ) (hdts : ∀ j k, 0 ≤ dts j k) :
    List.Chain' (· ≤ ·)
      (start_year :: (zenithSeq θ dts zaf 0 n start_year).map (fun x => x.1)) :=
  zenithSeq_times_chain θ dts zaf hdts n 0 start_year

/-- Concrete witness for claim C6. -/
theorem claim_C6_timestamps_monotone_witness :
    List.Chain' (· ≤ ·)
      ((0 : ℚ) :: (zenithSeq 1 (fun _ _ => 1) (fun _ _ => 0) 0 2 0).map (fun x => x.1)) :=
  claim_C6_timestamps_monotone 1 0 2 (fun _ _ => 1) (fun _ _ => 0)
    (fun _ _ => by norm_num)

/-! ## Claim C4: joint_gmf without ptype fails before the sampler -/

/-- Claim C4: in `joint_gmf` mode, a model whose `ptype` attribute was
never set makes `simulate` fail with an attribute error raised while the
input dictionary is being assembled; the result is this error for every
possible sampler, so the simulation sampler is never consulted. -/
theorem claim_C4_gmf_missing_ptype (m : ModelP) (src : SourceP) (det : DetectorP)
    (nuc : List (String × ℤ × ℤ)) (sim_table : List ℚ) (f : QKind → ℚ)
    (sampler : SimInput → SimOut) (dts : ℕ → ℕ → ℚ) (zaf : ℕ → ℚ → ℚ)
    (hp : m.ptype = none) :
    build_simulation_input gmf_type m src det nuc sim_table f
      = Except.error "AttributeError: Model object has no attribute ptype"
    ∧ simulate gmf_type m src det nuc sim_table f sampler dts zaf
      = Except.error "AttributeError: Model object has no attribute ptype" := by
  have hb : build_simulation_input gmf_type m src det nuc sim_table f
      = Except.error "AttributeError: Model object has no attribute ptype" := by
    unfold build_simulation_input
    rw [if_pos (by simp), hp]
  refine ⟨hb, ?_⟩
  unfold simulate
  rw [hb]
  rfl

/-- Concrete witness for claim C4. -/
theorem claim_C4_gmf_missing_ptype_witness :
    simulate gmf_type ⟨0, 0, 0, 0, 0, 0, 0, none⟩ ⟨[], [], 0, [], none⟩
      ⟨0, 0, 0, 0, 1, 0, 0, 2004⟩ [] [] (fun _ => 1)
      (fun _ => ⟨0, [], [], [], [], []⟩) (fun _ _ => 0) (fun _ _ => 0)
      = Except.error "AttributeError: Model object has no attribute ptype" :=
  (claim_C4_gmf_missing_ptype ⟨0, 0, 0, 0, 0, 0, 0, none⟩ ⟨[], [], 0, [], none⟩
    ⟨0, 0, 0, 0, 1, 0, 0, 2004⟩ [] [] (fun _ => 1)
    (fun _ => ⟨0, [], [], [], [], []⟩) (fun _ _ => 0) (fun _ _ => 0) rfl).2

/-! ## Claim C7: background zero row -/

/-- Claim C7: in every energy-aware mode, the `Earr_grid` passed to the
fit sampler has one more row than the number of selected sources, and the
appended final row is all zeros with one entry per `E_grid` point. -/
theorem claim_C7_background_zero_row (f : QKind → ℚ) (x : PrepIn)
    (hmode : energy_mode x.analysis_type = true) :
    ∃ rows, (prepare_fit_inputs f x).Earr_grid = some rows
      ∧ rows.length = (if x.sourceN < x.Earr_grid.length then x.selection.length
          else x.Earr_grid.length) + 1
      ∧ rows.getLast? = some (List.replicate x.E_grid.length (0 : ℚ))
      ∧ (∀ e ∈ List.replicate x.E_grid.length (0 : ℚ), e = 0) := by
  have hz : x.E_grid.map (fun _ => (0 : ℚ)) = List.replicate x.E_grid.length 0 := by
    induction x.E_grid with
    | nil => rfl
    | cons a l ih => simp [List.replicate, ih]
  have hlen : (np_resize x.table.flatten.flatten x.Earr_grid.length
      (x.Earr_grid.headD []).length).length = x.Earr_grid.length := by
    unfold np_resize
    exact chunkN_length _ _ _
  refine ⟨(if x.sourceN < x.Earr_grid.length
      then x.selection.map (fun i => x.Earr_grid.getD i []) else x.Earr_grid)
      ++ [x.E_grid.map (fun _ => (0 : ℚ))], ?_, ?_, ?_, ?_⟩
  · simp only [prepare_fit_inputs, hmode, if_true, hlen]
  · rw [List.length_append]
    by_cases hc : x.sourceN < x.Earr_grid.length
    · simp [hc]
    · simp [hc]
  · rw [List.getLast?_concat, hz]
  · intro e he
    exact (List.eq_of_mem_replicate he)

/-- Concrete witness for claim C7: one selected source, two-point energy
grid; the appended background row is `[0, 0]`. -/
theorem claim_C7_background_zero_row_witness :
    energy_mode "joint" = true
    ∧ ∃ rows, (prepare_fit_inputs (fun _ => 1)
        ⟨[[[1, 2]]], [1, 2], [3, 4], [[5, 6]], 1, [0], [1], 1, 0, [], [], [], [],
          "joint", 0, 0, 0⟩).Earr_grid = some rows
      ∧ rows.length = (if (1 : ℕ) < ([[5, 6]] : List (List ℚ)).length then ([0] : List ℕ).length
          else ([[5, 6]] : List (List ℚ)).length) + 1
      ∧ rows.getLast? = some (List.replicate ([3, 4] : List ℚ).length (0 : ℚ))
      ∧ (∀ e ∈ List.replicate ([3, 4] : List ℚ).length (0 : ℚ), e = 0) :=
  ⟨by decide, claim_C7_background_zero_row (fun _ => 1)
    ⟨[[[1, 2]]], [1, 2], [3, 4], [[5, 6]], 1, [0], [1], 1, 0, [], [], [], [],
      "joint", 0, 0, 0⟩ (by decide)⟩

/-! ## Claim C10: implicit default analysis mode -/

/-- Claim C10: a constructor call with `analysis_type=None` stores
`arrival_direction`, and under that stored value every joint/energy/gmf
dispatch guard is off while the arrival-direction kappa guard is on. -/
theorem claim_C10_default_analysis_mode :
    init_analysis_type none = arr_dir_type
    ∧ init_analysis_type none = "arrival_direction"
    ∧ contains_joint (init_analysis_type none) = false
    ∧ energy_mode (init_analysis_type none) = false
    ∧ (init_analysis_type none == gmf_type) = false
    ∧ ((init_analysis_type none == arr_dir_type)
        || (init_analysis_type none == E_loss_type)) = true :=
  ⟨rfl, rfl, by decide, by decide, by decide, by decide⟩

/-! ## Claim C8: selection filtering -/

/-- The collapsed fit table inside `_prepare_fit_inputs`. -/
theorem prepare_eps_eq (f : QKind → ℚ) (x : PrepIn) :
    (prepare_fit_inputs f x).eps
      = (if x.sourceN < x.Earr_grid.length
         then x.selection.map (fun i =>
           (np_resize x.table.flatten.flatten x.Earr_grid.length
             (x.Earr_grid.headD []).length).getD i [])
         else np_resize x.table.flatten.flatten x.Earr_grid.length
             (x.Earr_grid.headD []).length).map
        (fun r => r.map (fun v => f QKind.tableValues * v)) := by
  have hlen : (np_resize x.table.flatten.flatten x.Earr_grid.length
      (x.Earr_grid.headD []).length).length = x.Earr_grid.length := by
    unfold np_resize
    exact chunkN_length _ _ _
  simp only [prepare_fit_inputs, hlen, convert_scale, scale_quantity, scale_arr,
    num_mat, List.map_cons, List.map_nil, List.getD_cons_zero, List.getD_cons_succ]

/-- Claim C8: with an active selection (`data.source.N` below the table
row count), `simulate` keeps exactly the simulation-table entries indexed
by the selection, in selection order, and `_prepare_fit_inputs` keeps
exactly the selected fit-table rows and the selected `Earr_grid` rows (the
background row aside), each yielding `len(selection)` per-source rows. -/
theorem claim_C8_selection_filtering :
    (∀ (N : ℕ) (selection : List ℕ) (sim_table : List ℚ), N < sim_table.length →
      handle_selection N selection sim_table
          = selection.map (fun i => sim_table.getD i 0)
      ∧ (handle_selection N selection sim_table).length = selection.length)
    ∧ (∀ (f : QKind → ℚ) (x : PrepIn), x.sourceN < x.Earr_grid.length →
      (prepare_fit_inputs f x).eps
          = (x.selection.map (fun i =>
              (np_resize x.table.flatten.flatten x.Earr_grid.length
                (x.Earr_grid.headD []).length).getD i [])).map
            (fun r => r.map (fun v => f QKind.tableValues * v))
      ∧ (prepare_fit_inputs f x).eps.length = x.selection.length
      ∧ (energy_mode x.analysis_type = true →
          (prepare_fit_inputs f x).Earr_grid
            = some ((x.selection.map (fun i => x.Earr_grid.getD i []))
                ++ [x.E_grid.map (fun _ => (0 : ℚ))]))) := by
  constructor
  · intro N selection sim_table h
    refine ⟨?_, ?_⟩
    · unfold handle_selection
      rw [if_pos h]
    · unfold handle_selection
      rw [if_pos h, List.length_map]
  · intro f x h
    have hlen : (np_resize x.table.flatten.flatten x.Earr_grid.length
        (x.Earr_grid.headD []).length).length = x.Earr_grid.length := by
      unfold np_resize
      exact chunkN_length _ _ _
    have heps := prepare_eps_eq f x
    rw [if_pos h] at heps
    refine ⟨heps, ?_, ?_⟩
    · rw [heps, List.length_map, List.length_map]
    · intro hmode
      simp only [prepare_fit_inputs, hlen, if_pos h, hmode, if_true]

/-- Concrete witness for claim C8: a three-row table with selection
`[2, 0]` keeps rows 2 and 0, in that order, on both paths. -/
theorem claim_C8_selection_filtering_witness :
    ((2 : ℕ) < ([10, 20, 30] : List ℚ).length
      ∧ handle_selection 2 [2, 0] [10, 20, 30]
          = ([2, 0] : List ℕ).map (fun i => ([10, 20, 30] : List ℚ).getD i 0)
      ∧ (handle_selection 2 [2, 0] [10, 20, 30]).length = ([2, 0] : List ℕ).length)
    ∧ ((1 : ℕ) < ([[5], [6]] : List (List ℚ)).length
      ∧ (prepare_fit_inputs (fun _ => 1)
          ⟨[[[1], [2]]], [7], [3], [[5], [6]], 1, [1], [1], 1, 0, [], [], [], [],
            "joint", 0, 0, 0⟩).eps.length = ([1] : List ℕ).length) := by
  have h1 := claim_C8_selection_filtering.1 2 [2, 0] [10, 20, 30] (by decide)
  have h2 := claim_C8_selection_filtering.2 (fun _ => 1)
    ⟨[[[1], [2]]], [7], [3], [[5], [6]], 1, [1], [1], 1, 0, [], [], [], [],
      "joint", 0, 0, 0⟩ (by decide)
  exact ⟨⟨by decide, h1.1, h1.2⟩, ⟨by decide, h2.2.1⟩⟩

/-! ## Claim C2: fit-table shape invariant -/

/-- Claim C2 (amended): when the collected fit table has the
multiprocessing-induced shape `(1, num_sources, K)` with `num_sources`
matching `Earr_grid`'s row count, and `Earr_grid`'s row length equals the
kappa-grid length `K` (as happens with the default `num_points = 50` in
both `build_tables` and `build_energy_table`), then
`_prepare_fit_inputs`'s `resize` exactly collapses the leading singleton
dimension, `fit_input.eps` has one row per (selected) source, and
`fit_input.Ngrid = len(kappa_grid)` equals the length of every row. -/
theorem claim_C2_fit_table_alignment (f : QKind → ℚ) (x : PrepIn)
    (h1 : x.table.length = 1)
    (ht : ∀ mm ∈ x.table, mm.length = x.Earr_grid.length
            ∧ ∀ r ∈ mm, r.length = x.kappa.length)
    (hE : (x.Earr_grid.headD []).length = x.kappa.length)
    (hsel : ∀ i ∈ x.selection, i < x.Earr_grid.length) :
    np_resize x.table.flatten.flatten x.Earr_grid.length
        (x.Earr_grid.headD []).length = x.table.headD []
    ∧ (prepare_fit_inputs f x).Ngrid = x.kappa.length
    ∧ (prepare_fit_inputs f x).kappa_grid = x.kappa
    ∧ (prepare_fit_inputs f x).eps.length
        = (if x.sourceN < x.Earr_grid.length then x.selection.length
           else x.Earr_grid.length)
    ∧ (∀ row ∈ (prepare_fit_inputs f x).eps,
        row.length = (prepare_fit_inputs f x).Ngrid) := by
  obtain ⟨t0, ht0⟩ := List.length_eq_one.mp h1
  have hmem : t0 ∈ x.table := by rw [ht0]; exact List.mem_singleton_self t0
  have hrows : t0.length = x.Earr_grid.length := (ht t0 hmem).1
  have hcols : ∀ r ∈ t0, r.length = (x.Earr_grid.headD []).length := by
    intro r hr
    rw [hE]
    exact (ht t0 hmem).2 r hr
  have hflat : x.table.flatten.flatten = t0.flatten := by
    rw [ht0]
    simp
  have hres : np_resize x.table.flatten.flatten x.Earr_grid.length
      (x.Earr_grid.headD []).length = t0 := by
    rw [hflat, ← hrows]
    exact np_resize_exact _ t0 hcols
  have hNgrid : (prepare_fit_inputs f x).Ngrid = x.kappa.length := rfl
  have hkg : (prepare_fit_inputs f x).kappa_grid = x.kappa := rfl
  have heps := prepare_eps_eq f x
  rw [hres] at heps
  refine ⟨by rw [hres, ht0]; rfl, hNgrid, hkg, ?_, ?_⟩
  · rw [heps]
    by_cases hc : x.sourceN < x.Earr_grid.length
    · rw [if_pos hc, List.length_map, List.length_map, if_pos hc]
    · rw [if_neg hc, List.length_map, hrows, if_neg hc]
  · intro row hrow
    rw [heps] at hrow
    rw [hNgrid]
    obtain ⟨r, hr, hreq⟩ := List.mem_map.mp hrow
    have hrt0 : r ∈ t0 := by
      by_cases hc : x.sourceN < x.Earr_grid.length
      · rw [if_pos hc] at hr
        obtain ⟨i, hi, hieq⟩ := List.mem_map.mp hr
        have hilt : i < t0.length := by
          rw [hrows]
          exact hsel i hi
        rw [← hieq]
        rw [List.getD_eq_getElem _ _ hilt]
        exact List.getElem_mem hilt
      · rw [if_neg hc] at hr
        exact hr
    rw [← hreq, List.length_map]
    rw [← hE]
    exact hcols r hrt0

/-- Counterexample to claim C2 as stated: a run in which the kappa grid
has 10 points (`build_tables(num_points=10)`) but the energy grid has 5
(`build_energy_table(num_points=5)`).  `eps_fit.resize(Earr_grid.shape)`
then truncates each fit-table row to 5 entries while `Ngrid` stays 10, so
the fit table and the kappa grid are no longer aligned. -/
theorem claim_C2_counterexample :
    ¬ (∀ row ∈ (prepare_fit_inputs (fun _ => 1)
        ⟨[[[1, 2, 3, 4, 5, 6, 7, 8, 9, 10]]],
          [1, 2, 3, 4, 5, 6, 7, 8, 9, 10], [1, 2, 3, 4, 5], [[1, 2, 3, 4, 5]],
          1, [0], [1], 1, 0, [], [], [], [], "joint", 0, 0, 0⟩).eps,
        row.length = (prepare_fit_inputs (fun _ => 1)
        ⟨[[[1, 2, 3, 4, 5, 6, 7, 8, 9, 10]]],
          [1, 2, 3, 4, 5, 6, 7, 8, 9, 10], [1, 2, 3, 4, 5], [[1, 2, 3, 4, 5]],
          1, [0], [1], 1, 0, [], [], [], [], "joint", 0, 0, 0⟩).Ngrid) := by
  decide

/-- Concrete witness for the amended claim C2: matching grids with two
sources and a two-point kappa grid. -/
theorem claim_C2_fit_table_alignment_witness :
    np_resize (([[[1, 2], [3, 4]]] : List (List (List ℚ))).flatten.flatten)
        ([[5, 6], [7, 8]] : List (List ℚ)).length
        (([[5, 6], [7, 8]] : List (List ℚ)).headD []).length
        = ([[[1, 2], [3, 4]]] : List (List (List ℚ))).headD []
    ∧ (prepare_fit_inputs (fun _ => 1)
        ⟨[[[1, 2], [3, 4]]], [1, 2], [1, 2], [[5, 6], [7, 8]], 2, [], [1, 1], 1,
          0, [], [], [], [], "joint", 0, 0, 0⟩).Ngrid
        = ([1, 2] : List ℚ).length
    ∧ (prepare_fit_inputs (fun _ => 1)
        ⟨[[[1, 2], [3, 4]]], [1, 2], [1, 2], [[5, 6], [7, 8]], 2, [], [1, 1], 1,
          0, [], [], [], [], "joint", 0, 0, 0⟩).kappa_grid = [1, 2]
    ∧ (prepare_fit_inputs (fun _ => 1)
        ⟨[[[1, 2], [3, 4]]], [1, 2], [1, 2], [[5, 6], [7, 8]], 2, [], [1, 1], 1,
          0, [], [], [], [], "joint", 0, 0, 0⟩).eps.length
        = (if (2 : ℕ) < ([[5, 6], [7, 8]] : List (List ℚ)).length then ([] : List ℕ).length
           else ([[5, 6], [7, 8]] : List (List ℚ)).length)
    ∧ (∀ row ∈ (prepare_fit_inputs (fun _ => 1)
        ⟨[[[1, 2], [3, 4]]], [1, 2], [1, 2], [[5, 6], [7, 8]], 2, [], [1, 1], 1,
          0, [], [], [], [], "joint", 0, 0, 0⟩).eps,
        row.length = (prepare_fit_inputs (fun _ => 1)
        ⟨[[[1, 2], [3, 4]]], [1, 2], [1, 2], [[5, 6], [7, 8]], 2, [], [1, 1], 1,
          0, [], [], [], [], "joint", 0, 0, 0⟩).Ngrid) :=
  claim_C2_fit_table_alignment (fun _ => 1)
    ⟨[[[1, 2], [3, 4]]], [1, 2], [1, 2], [[5, 6], [7, 8]], 2, [], [1, 1], 1,
      0, [], [], [], [], "joint", 0, 0, 0⟩
    (by decide) (by decide) (by decide) (by decide)

/-! ## Claim C9: ScaleConverter shape and order preservation -/

/-- Rescaling never changes a payload's shape. -/
theorem arr_shape_scale (c : ℚ) (v : NumArray) : arr_shape (scale_arr c v) = arr_shape v := by
  cases v with
  | scalar x => rfl
  | vec v => simp [scale_arr, arr_shape]
  | mat m => simp [scale_arr, arr_shape]

/-- Claim C9: `convert_scale` returns as many results as it was given
arguments, pairs them with its arguments in order (result `j` is the
rescaling of argument `j`), and preserves each quantity's kind and
shape.  As a Lean function it is pure, so it has no side effects on its
arguments. -/
theorem claim_C9_convert_scale_shape (f : QKind → ℚ) (qs : List PhysQuantity) :
    (convert_scale f qs).length = qs.length
    ∧ convert_scale f qs = qs.map (scale_quantity f)
    ∧ List.Forall₂ (fun q q' => q' = scale_quantity f q ∧ q'.kind = q.kind
        ∧ arr_shape q'.val = arr_shape q.val) qs (convert_scale f qs) := by
  refine ⟨by simp [convert_scale], rfl, ?_⟩
  induction qs with
  | nil => exact List.Forall₂.nil
  | cons q rest ih =>
    exact List.Forall₂.cons ⟨rfl, rfl, arr_shape_scale (f q.kind) q.val⟩ ih

end Fancy
